import Mathlib

/-!
Shallow embedding of the SmartAIMap procedural ambient audio engine
(src/components/AudioManager.tsx) and of the generative-backend retry
wrapper (the withRetry function of the unnamed Gemini client module).

Conventions of the embedding:
- Web Audio AudioParam automation calls (setTargetAtTime, setValueAtTime,
  linearRampToValueAtTime, exponentialRampToValueAtTime) and direct
  assignments to param.value are reified as AutomationEvent values; each
  React useEffect body is a pure function from the relevant props to the
  list of events it schedules (in source order) plus the routine it
  installs, and the React effect lifecycle (run cleanup of the previous
  effect, then the new body, skipping when the dependency is unchanged)
  is an explicit step function on an EngineState.
- Real numbers of the source are modelled as rationals; the exponential
  decay factor exp(-(t - t0) / tc) of a setTargetAtTime transition is
  abstracted as a rational parameter d with 0 < d < 1 where a theorem
  needs a mid-transition value.
- setInterval handles are modelled as fresh natural-number ids; a live
  interval is a Timer in the EngineState timer list and clearInterval
  removes it by id, as the platform does.
-/

/-- Oscillator waveform shapes, as the string union used by the source. -/
inductive WaveType
  | sine
  | square
  | triangle
  | sawtooth
deriving DecidableEq, Repr

/-- BiquadFilterNode types used by the source; lowpass is the Web Audio
default type a fresh filter starts with. -/
inductive FilterType
  | lowpass
  | highpass
  | bandpass
  | notch
deriving DecidableEq, Repr

/-- BotLockStatus enum from src/types.ts. -/
inductive BotLockStatus
  | UNLOCKED
  | SCANNING
  | LOCKED
  | OVERRIDE
deriving DecidableEq, Repr

/-- The AudioParam instances the AudioManager mutates. bankFreq i is the
frequency param of harmonic-bank oscillator i. -/
inductive ParamId
  | mainGainG
  | noiseGainG
  | droneGainG
  | alarmGainG
  | pan
  | filterFreq
  | filterQ
  | bankFreq (i : Fin 3)
  | alarmFreq
deriving DecidableEq, Repr

/-- One Web Audio parameter-automation call, reified. directSet models a
plain assignment param.value = v (used only at graph construction). -/
inductive AutomationEvent
  | setTargetAtTime (target : ℚ) (startTime : ℚ) (timeConstant : ℚ)
  | setValueAtTime (value : ℚ) (time : ℚ)
  | linearRampToValueAtTime (value : ℚ) (endTime : ℚ)
  | exponentialRampToValueAtTime (value : ℚ) (endTime : ℚ)
  | directSet (value : ℚ)
deriving DecidableEq, Repr

/-- An event is instantaneous when it steps the parameter to a value at a
single instant (setValueAtTime, or a direct value assignment) rather than
scheduling a transition with a time constant or ramp duration. -/
def isInstantaneousEvent : AutomationEvent → Bool
  | .setValueAtTime _ _ => true
  | .directSet _ => true
  | _ => false

/-- Mute effect body (AudioManager.tsx lines 96-101):
mainGain.gain.setTargetAtTime(isMuted ? 0 : 0.4, now, 0.1). -/
def muteEffect (isMuted : Bool) (now : ℚ) : ParamId × AutomationEvent :=
  (ParamId.mainGainG,
    AutomationEvent.setTargetAtTime (if isMuted then 0 else 2/5) now (1/10))

/-- Spatial panning effect body (AudioManager.tsx lines 104-109):
panValue = (scrollPos / 50) - 1; pan.setTargetAtTime(panValue, now, 0.1).
The source performs no clamping of its own. -/
def panEffect (scrollPos : ℚ) (now : ℚ) : ParamId × AutomationEvent :=
  (ParamId.pan,
    AutomationEvent.setTargetAtTime (scrollPos / 50 - 1) now (1/10))

/-- Value actually taken by the StereoPannerNode pan parameter for a given
automation target: per the Web Audio specification the computed value of
the pan AudioParam is clamped to its nominal range, which is -1 to 1. -/
def clampPan (x : ℚ) : ℚ := if x ≤ -1 then -1 else if 1 ≤ x then 1 else x

/-- Effective pan resulting from the spatial panning effect at scroll
position p: the scheduled target (p / 50) - 1 clamped by the panner node
to its nominal range. -/
def appliedPan (scrollPos : ℚ) : ℚ := clampPan (scrollPos / 50 - 1)

/-- Steady-state target parameters of the graph: for each automated
parameter the most recently scheduled target value, together with the
directly assigned node types. bank0, bank1, bank2 are the (waveform,
frequency-target) pairs of the three harmonic-bank oscillators. -/
structure Targets where
  mainGainT : ℚ
  noiseGainT : ℚ
  droneGainT : ℚ
  alarmGainT : ℚ
  panT : ℚ
  filterT : FilterType
  filterFreqT : ℚ
  filterQT : ℚ
  bank0 : WaveType × ℚ
  bank1 : WaveType × ℚ
  bank2 : WaveType × ℚ
deriving DecidableEq, Repr

/-- Targets right after graph construction (AudioManager.tsx lines 29-93):
mainGain.gain.value = isMuted ? 0 : 0.4, droneGain.gain.value = 0.2,
alarmGain.gain.value = 0; every parameter not assigned keeps its Web Audio
default (gain 1, pan 0, filter lowpass at 350 with Q 1, oscillator sine at
440). The alarm oscillator type is set to sawtooth at construction and
never changed; it is not part of Targets. -/
def constructionTargets (isMuted : Bool) : Targets :=
  { mainGainT := if isMuted then 0 else 2/5
    noiseGainT := 1
    droneGainT := 1/5
    alarmGainT := 0
    panT := 0
    filterT := FilterType.lowpass
    filterFreqT := 350
    filterQT := 1
    bank0 := (WaveType.sine, 440)
    bank1 := (WaveType.sine, 440)
    bank2 := (WaveType.sine, 440) }

/-- Baseline transitions the profile effect applies before the switch
(AudioManager.tsx lines 142-144): filter.Q toward 1, noiseGain toward 0.5,
droneGain toward 0.2. -/
def applyBaseline (t : Targets) : Targets :=
  { t with filterQT := 1, noiseGainT := 1/2, droneGainT := 1/5 }

/-- Effect of the profile switch statement (AudioManager.tsx lines
131-233) on the steady-state targets: the baseline defaults first, then
the branch selected by the profile string; an unrecognized profile leaves
only the baseline applied. -/
def profileEffectTargets (p : String) (t : Targets) : Targets :=
  let t1 := applyBaseline t
  if p = "Natural" then
    { t1 with filterT := FilterType.lowpass, filterFreqT := 400,
              noiseGainT := 3/5,
              bank0 := (WaveType.sine, 120), bank1 := (WaveType.sine, 180),
              bank2 := (WaveType.sine, 60) }
  else if p = "Industrial" then
    { t1 with filterT := FilterType.bandpass, filterFreqT := 200,
              filterQT := 8, noiseGainT := 3/10,
              bank0 := (WaveType.square, 50),
              bank1 := (WaveType.triangle, 100),
              bank2 := (WaveType.sine, 150) }
  else if p = "Void" then
    { t1 with filterT := FilterType.lowpass, filterFreqT := 60,
              noiseGainT := 1/10,
              bank0 := (WaveType.sine, 32), bank1 := (WaveType.sine, 48),
              bank2 := (WaveType.sine, 24) }
  else if p = "Electronic" then
    { t1 with filterT := FilterType.highpass, filterFreqT := 3000,
              noiseGainT := 2/5,
              bank0 := (WaveType.sawtooth, 440),
              bank1 := (WaveType.square, 880),
              bank2 := (WaveType.sine, 1760) }
  else if p = "Hostile" then
    { t1 with filterT := FilterType.notch, filterFreqT := 1000,
              filterQT := 4, noiseGainT := 4/5,
              bank0 := (WaveType.sawtooth, 40),
              bank1 := (WaveType.sawtooth, 43),
              bank2 := (WaveType.square, 21) }
  else t1

/-- The parameter-automation calls of the baseline defaults
(AudioManager.tsx lines 142-144), in source order. -/
def defaultEvents (now : ℚ) : List (ParamId × AutomationEvent) :=
  [ (ParamId.filterQ, AutomationEvent.setTargetAtTime 1 now (1/2)),
    (ParamId.noiseGainG, AutomationEvent.setTargetAtTime (1/2) now (1/2)),
    (ParamId.droneGainG, AutomationEvent.setTargetAtTime (1/5) now (1/2)) ]

/-- The parameter-automation calls of the profile effect body in source
order: the baseline defaults, then the setTargetAtTime calls of the branch
selected by the profile string (waveform type assignments are not
AudioParam automation and are captured by profileEffectTargets). -/
def profileEffectEvents (p : String) (now : ℚ) : List (ParamId × AutomationEvent) :=
  defaultEvents now ++
  (if p = "Natural" then
    [ (ParamId.filterFreq, AutomationEvent.setTargetAtTime 400 now (1/2)),
      (ParamId.noiseGainG, AutomationEvent.setTargetAtTime (3/5) now (1/2)),
      (ParamId.bankFreq 0, AutomationEvent.setTargetAtTime 120 now (1/2)),
      (ParamId.bankFreq 1, AutomationEvent.setTargetAtTime 180 now (1/2)),
      (ParamId.bankFreq 2, AutomationEvent.setTargetAtTime 60 now (1/2)) ]
  else if p = "Industrial" then
    [ (ParamId.filterFreq, AutomationEvent.setTargetAtTime 200 now (1/2)),
      (ParamId.filterQ, AutomationEvent.setTargetAtTime 8 now (1/2)),
      (ParamId.noiseGainG, AutomationEvent.setTargetAtTime (3/10) now (1/2)),
      (ParamId.bankFreq 0, AutomationEvent.setTargetAtTime 50 now (1/2)),
      (ParamId.bankFreq 1, AutomationEvent.setTargetAtTime 100 now (1/2)),
      (ParamId.bankFreq 2, AutomationEvent.setTargetAtTime 150 now (1/2)) ]
  else if p = "Void" then
    [ (ParamId.filterFreq, AutomationEvent.setTargetAtTime 60 now (1/2)),
      (ParamId.noiseGainG, AutomationEvent.setTargetAtTime (1/10) now (1/2)),
      (ParamId.bankFreq 0, AutomationEvent.setTargetAtTime 32 now (1/2)),
      (ParamId.bankFreq 1, AutomationEvent.setTargetAtTime 48 now (1/2)),
      (ParamId.bankFreq 2, AutomationEvent.setTargetAtTime 24 now (1/2)) ]
  else if p = "Electronic" then
    [ (ParamId.filterFreq, AutomationEvent.setTargetAtTime 3000 now (1/2)),
      (ParamId.noiseGainG, AutomationEvent.setTargetAtTime (2/5) now (1/2)),
      (ParamId.bankFreq 0, AutomationEvent.setTargetAtTime 440 now (1/2)),
      (ParamId.bankFreq 1, AutomationEvent.setTargetAtTime 880 now (1/2)),
      (ParamId.bankFreq 2, AutomationEvent.setTargetAtTime 1760 now (1/2)) ]
  else if p = "Hostile" then
    [ (ParamId.filterFreq, AutomationEvent.setTargetAtTime 1000 now (1/2)),
      (ParamId.filterQ, AutomationEvent.setTargetAtTime 4 now (1/2)),
      (ParamId.noiseGainG, AutomationEvent.setTargetAtTime (4/5) now (1/2)),
      (ParamId.bankFreq 0, AutomationEvent.setTargetAtTime 40 now (1/2)),
      (ParamId.bankFreq 1, AutomationEvent.setTargetAtTime 43 now (1/2)),
      (ParamId.bankFreq 2, AutomationEvent.setTargetAtTime 21 now (1/2)) ]
  else [])

/-- The five periodic-routine bodies installed by the profile and status
effects, identified by which setInterval body they are. -/
inductive RoutineKind
  | naturalCutoff
  | industrialPulse
  | electronicGlitch
  | hostileJitter
  | alarmSweep
deriving DecidableEq, Repr

/-- A periodic routine as installed by setInterval: which body it runs and
its period in milliseconds. -/
structure RoutineSpec where
  kind : RoutineKind
  periodMs : ℕ
deriving DecidableEq, Repr

/-- Periodic routine installed by the profile effect for each profile
string (AudioManager.tsx: profileInterval assignments); Void and any
unrecognized profile install none. -/
def profileRoutine (p : String) : Option RoutineSpec :=
  if p = "Natural" then some ⟨RoutineKind.naturalCutoff, 2000⟩
  else if p = "Industrial" then some ⟨RoutineKind.industrialPulse, 1000⟩
  else if p = "Void" then none
  else if p = "Electronic" then some ⟨RoutineKind.electronicGlitch, 600⟩
  else if p = "Hostile" then some ⟨RoutineKind.hostileJitter, 50⟩
  else none

/-- One tick of the Natural routine (AudioManager.tsx lines 158-161):
filter.frequency.exponentialRampToValueAtTime(200 + Math.random() * 800,
t + 1.5); rand stands for the Math.random() draw. -/
def naturalTick (t rand : ℚ) : List (ParamId × AutomationEvent) :=
  [ (ParamId.filterFreq,
      AutomationEvent.exponentialRampToValueAtTime (200 + rand * 800) (t + 3/2)) ]

/-- One tick of the Industrial routine (AudioManager.tsx lines 174-179):
dGain.gain.setValueAtTime(0.15, t); linearRampToValueAtTime(0.25, t + 0.1);
linearRampToValueAtTime(0.15, t + 0.5). -/
def industrialTick (t : ℚ) : List (ParamId × AutomationEvent) :=
  [ (ParamId.droneGainG, AutomationEvent.setValueAtTime (3/20) t),
    (ParamId.droneGainG, AutomationEvent.linearRampToValueAtTime (1/4) (t + 1/10)),
    (ParamId.droneGainG, AutomationEvent.linearRampToValueAtTime (3/20) (t + 1/2)) ]

/-- One tick of the Electronic glitch routine (AudioManager.tsx lines
201-207): slot is the randomly chosen bank index, rand the Math.random()
draw for the jump frequency, and originalFreq the value read from
targetOsc.frequency.value at the moment the tick fires; the tick jumps the
frequency to 100 + rand * 5000 at t and writes originalFreq back at
t + 0.05, both via setValueAtTime. -/
def electronicTick (t : ℚ) (slot : Fin 3) (rand originalFreq : ℚ) :
    List (ParamId × AutomationEvent) :=
  [ (ParamId.bankFreq slot, AutomationEvent.setValueAtTime (100 + rand * 5000) t),
    (ParamId.bankFreq slot, AutomationEvent.setValueAtTime originalFreq (t + 1/20)) ]

/-- One tick of the Hostile jitter routine (AudioManager.tsx lines
220-226): for each bank oscillator, with current its frequency.value read
at the tick and rnd i its Math.random() draw, schedule
setTargetAtTime(current + (rnd - 0.5) * 20, t, 0.05). -/
def hostileTick (t : ℚ) (current rnd : Fin 3 → ℚ) :
    List (ParamId × AutomationEvent) :=
  (List.finRange 3).map fun i =>
    (ParamId.bankFreq i,
      AutomationEvent.setTargetAtTime (current i + (rnd i - 1/2) * 20) t (1/20))

/-- One tick of the OVERRIDE alarm sweep routine (AudioManager.tsx lines
118-123): alarmOsc.frequency.setValueAtTime(880, time) then
exponentialRampToValueAtTime(440, time + 0.4). -/
def alarmSweepTick (t : ℚ) : List (ParamId × AutomationEvent) :=
  [ (ParamId.alarmFreq, AutomationEvent.setValueAtTime 880 t),
    (ParamId.alarmFreq, AutomationEvent.exponentialRampToValueAtTime 440 (t + 2/5)) ]

/-- Alarm-gain automation call and routine installed by the status effect
(AudioManager.tsx lines 112-128): OVERRIDE ramps the alarm gain toward 0.1
with time constant 0.1 and installs the 1000 ms sweep routine; every other
status ramps it toward 0 with time constant 0.2 and installs nothing. -/
def statusEffect (s : BotLockStatus) (now : ℚ) :
    (ParamId × AutomationEvent) × Option RoutineSpec :=
  if s = BotLockStatus.OVERRIDE then
    ((ParamId.alarmGainG, AutomationEvent.setTargetAtTime (1/10) now (1/10)),
      some ⟨RoutineKind.alarmSweep, 1000⟩)
  else
    ((ParamId.alarmGainG, AutomationEvent.setTargetAtTime 0 now (1/5)), none)

/-- The two independent axes on which periodic routines are installed. -/
inductive Axis
  | profileAxis
  | statusAxis
deriving DecidableEq, Repr

/-- A live setInterval registration: its platform handle (a fresh id),
the effect axis that installed it, and the routine it runs. -/
structure Timer where
  id : ℕ
  axis : Axis
  spec : RoutineSpec
deriving DecidableEq, Repr

/-- State of the mounted AudioManager: current props, steady-state
targets, the live setInterval timers, the next fresh interval handle, and
the handles held by the profile and status effect cleanups (none when the
last run of that effect installed no interval). -/
structure EngineState where
  profile : String
  status : BotLockStatus
  scrollPos : ℚ
  isMuted : Bool
  targets : Targets
  timers : List Timer
  nextId : ℕ
  profileTimerId : Option ℕ
  statusTimerId : Option ℕ
deriving DecidableEq, Repr

/-- Timers of one axis within a timer list. -/
def axisFilter (a : Axis) (ts : List Timer) : List Timer :=
  ts.filter fun tm => decide (tm.axis = a)

/-- Live timers on one axis. -/
def axisTimers (a : Axis) (st : EngineState) : List Timer :=
  axisFilter a st.timers

/-- clearInterval on an optional held handle: removes the timer with that
id, a no-op when no handle is held. -/
def clearTimer (h : Option ℕ) (ts : List Timer) : List Timer :=
  match h with
  | none => ts
  | some i => ts.filter fun tm => decide (tm.id ≠ i)

/-- Run the mute effect body on the state (updates the master-gain
target from the current isMuted prop). -/
def applyMuteEffect (st : EngineState) : EngineState :=
  { st with targets :=
      { st.targets with mainGainT := if st.isMuted then 0 else 2/5 } }

/-- Run the spatial-panning effect body on the state: the pan target is
the unclamped value (scrollPos / 50) - 1 the source schedules. -/
def applyPanEffect (st : EngineState) : EngineState :=
  { st with targets := { st.targets with panT := st.scrollPos / 50 - 1 } }

/-- Run the status effect on the state: first the cleanup of the previous
run (clearInterval on the held handle), then the body — alarm-gain target
0.1 plus a fresh 1000 ms sweep interval for OVERRIDE, alarm-gain target 0
and no interval otherwise. -/
def applyStatusEffect (st : EngineState) : EngineState :=
  let ts := clearTimer st.statusTimerId st.timers
  if st.status = BotLockStatus.OVERRIDE then
    { st with
      targets := { st.targets with alarmGainT := 1/10 }
      timers := ts ++ [⟨st.nextId, Axis.statusAxis, ⟨RoutineKind.alarmSweep, 1000⟩⟩]
      nextId := st.nextId + 1
      statusTimerId := some st.nextId }
  else
    { st with
      targets := { st.targets with alarmGainT := 0 }
      timers := ts
      statusTimerId := none }

/-- Run the profile effect on the state: first the cleanup of the previous
run (clearInterval on the held profileInterval handle), then the body —
baseline defaults plus the profile branch targets, and the branch's
interval if it installs one. -/
def applyProfileEffect (st : EngineState) : EngineState :=
  let ts := clearTimer st.profileTimerId st.timers
  let tg := profileEffectTargets st.profile st.targets
  match profileRoutine st.profile with
  | some spec =>
    { st with
      targets := tg
      timers := ts ++ [⟨st.nextId, Axis.profileAxis, spec⟩]
      nextId := st.nextId + 1
      profileTimerId := some st.nextId }
  | none =>
    { st with targets := tg, timers := ts, profileTimerId := none }

/-- Mounting the component with initial props: graph construction followed
by the four effect bodies, which React runs top to bottom on mount (mute,
panning, status, profile — the order they appear in AudioManager.tsx). -/
def mount (p : String) (s : BotLockStatus) (scroll : ℚ) (muted : Bool) :
    EngineState :=
  let st0 : EngineState :=
    { profile := p, status := s, scrollPos := scroll, isMuted := muted,
      targets := constructionTargets muted,
      timers := [], nextId := 0,
      profileTimerId := none, statusTimerId := none }
  applyProfileEffect (applyStatusEffect (applyPanEffect (applyMuteEffect st0)))

/-- Control-surface calls: a prop update delivered to the component. -/
inductive Cmd
  | setProfile (p : String)
  | setStatus (s : BotLockStatus)
  | setScrollPosition (q : ℚ)
  | setMuted (b : Bool)
deriving DecidableEq, Repr

/-- One prop update: React re-renders and re-runs exactly the effect whose
dependency changed (running its previous cleanup first, inside the
applyXEffect functions); an update to the unchanged value re-runs
nothing. -/
def step (st : EngineState) : Cmd → EngineState
  | Cmd.setProfile p =>
      if p = st.profile then st else applyProfileEffect { st with profile := p }
  | Cmd.setStatus s =>
      if s = st.status then st else applyStatusEffect { st with status := s }
  | Cmd.setScrollPosition q =>
      if q = st.scrollPos then st else applyPanEffect { st with scrollPos := q }
  | Cmd.setMuted b =>
      if b = st.isMuted then st else applyMuteEffect { st with isMuted := b }

/-- Run a sequence of control-surface calls. -/
def run (st : EngineState) (cs : List Cmd) : EngineState :=
  cs.foldl step st

/-- Value of an AudioParam mid-way through a setTargetAtTime transition
from v0 toward v1: per the Web Audio specification the computed value is
v1 + (v0 - v1) * exp(-(t - t0) / tc); the exponential factor is abstracted
as d. -/
def setTargetValue (v0 v1 d : ℚ) : ℚ := v1 + (v0 - v1) * d

/-- Computed value over time of a bank oscillator frequency that had a
pending setTargetAtTime glide from v0 toward v1 (decay profile d, a
function of time with values in (0,1) after the glide start) when a glitch
tick fired at t1 with jump value r and read-back value c: per Web Audio
event semantics the setValueAtTime events supersede the setTargetAtTime
approach from t1 on, so the value is the glide before t1, r on
[t1, t1 + 0.05), and c from t1 + 0.05 on — with no further approach toward
v1. -/
def paramValueAfterGlitch (v0 v1 : ℚ) (d : ℚ → ℚ) (t1 r c : ℚ) (t : ℚ) : ℚ :=
  if t < t1 then setTargetValue v0 v1 (d t)
  else if t < t1 + 1/20 then r
  else c

/-- Character-list test that the second list starts with the first. -/
def charsStartWith : List Char → List Char → Bool
  | [], _ => true
  | _ :: _, [] => false
  | p :: ps, c :: cs => p == c && charsStartWith ps cs

/-- Character-list test that pat occurs as a contiguous run somewhere in
the list. -/
def charsInclude (pat : List Char) : List Char → Bool
  | [] => charsStartWith pat []
  | c :: cs => charsStartWith pat (c :: cs) || charsInclude pat cs

/-- JavaScript String.prototype.includes: the message contains pat as a
substring. -/
def containsSubstr (s pat : String) : Bool := charsInclude pat.data s.data

/-- Quota-error test of the retry wrapper (unnamed Gemini client module,
withRetry): the message includes 429, quota or EXHAUSTED. -/
def isQuotaError (msg : String) : Bool :=
  containsSubstr msg "429" || containsSubstr msg "quota" ||
    containsSubstr msg "EXHAUSTED"

/-- The withRetry wrapper of the Gemini client module, with the attempts
reified: fn n is the outcome of the n-th call attempt (errors carry their
message string). Returns the final outcome together with the list of
backoff delays actually slept, in order. A failed attempt is retried only
when retries remain and the error is a quota error, with the delay doubled
for the recursive call; otherwise the error is rethrown unmodified. -/
def withRetry {α : Type} (fn : ℕ → Except String α) :
    ℕ → ℕ → ℕ → Except String α × List ℕ
  | 0, _, attempt =>
    match fn attempt with
    | Except.ok v => (Except.ok v, [])
    | Except.error e => (Except.error e, [])
  | retries + 1, delay, attempt =>
    match fn attempt with
    | Except.ok v => (Except.ok v, [])
    | Except.error e =>
      if isQuotaError e then
        let q := withRetry fn retries (delay * 2) (attempt + 1)
        (q.1, delay :: q.2)
      else (Except.error e, [])

/-- withRetry at the source's default arguments (retries = 2,
delay = 2000), starting from the first attempt. -/
def withRetryDefault {α : Type} (fn : ℕ → Except String α) :
    Except String α × List ℕ :=
  withRetry fn 2 2000 0

/-- Direct parameter-value assignments performed at graph construction
(AudioManager.tsx lines 36, 66 and 83): mainGain.gain.value =
isMuted ? 0 : 0.4, droneGain.gain.value = 0.2, alarmGain.gain.value = 0. -/
def constructionEvents (isMuted : Bool) : List (ParamId × AutomationEvent) :=
  [ (ParamId.mainGainG, AutomationEvent.directSet (if isMuted then 0 else 2/5)),
    (ParamId.droneGainG, AutomationEvent.directSet (1/5)),
    (ParamId.alarmGainG, AutomationEvent.directSet 0) ]

/-- Bookkeeping invariant of the engine state: every live interval handle
is below the fresh-handle counter, handles are pairwise distinct across
live timers, and the timers on each axis are exactly the ones whose
handles the corresponding effect cleanup holds. -/
structure WInv (st : EngineState) : Prop where
  idsLt : ∀ tm ∈ st.timers, tm.id < st.nextId
  idsNodup : (st.timers.map fun tm => tm.id).Nodup
  profIds : ((axisTimers Axis.profileAxis st).map fun tm => tm.id)
      = st.profileTimerId.toList
  statIds : ((axisTimers Axis.statusAxis st).map fun tm => tm.id)
      = st.statusTimerId.toList

/-- The profile axis is in sync with the current profile: the live
profile-axis routines are exactly the routine the current profile
installs. -/
def ProfOk (st : EngineState) : Prop :=
  ((axisTimers Axis.profileAxis st).map fun tm => tm.spec)
    = (profileRoutine st.profile).toList

/-- The status axis is in sync with the current status: exactly one
1000 ms alarm sweep routine is live in OVERRIDE and none otherwise. -/
def StatOk (st : EngineState) : Prop :=
  ((axisTimers Axis.statusAxis st).map fun tm => tm.spec)
    = if st.status = BotLockStatus.OVERRIDE
      then [⟨RoutineKind.alarmSweep, 1000⟩] else []

/-- The alarm-gain target is in sync with the current status. -/
def AlarmOk (st : EngineState) : Prop :=
  st.targets.alarmGainT = if st.status = BotLockStatus.OVERRIDE then 1/10 else 0

/-- All reachable-state invariants together. -/
def Reach (st : EngineState) : Prop :=
  WInv st ∧ ProfOk st ∧ StatOk st ∧ AlarmOk st

/-- Checker used in statements: the event is a setTargetAtTime scheduled
at the given start time with the given time constant. -/
def isSmoothedAt (now tc : ℚ) : AutomationEvent → Bool
  | AutomationEvent.setTargetAtTime _ t0 tc0 => decide (t0 = now) && decide (tc0 = tc)
  | _ => false

lemma run_append (st : EngineState) (cs1 cs2 : List Cmd) :
    run st (cs1 ++ cs2) = run (run st cs1) cs2 :=
  List.foldl_append _ _ _ _

lemma step_setMuted_eq (st : EngineState) (b : Bool) :
    step st (Cmd.setMuted b)
      = if b = st.isMuted then st else applyMuteEffect { st with isMuted := b } := rfl

lemma step_setProfile_eq (st : EngineState) (p : String) :
    step st (Cmd.setProfile p)
      = if p = st.profile then st else applyProfileEffect { st with profile := p } := rfl

lemma step_setStatus_eq (st : EngineState) (s : BotLockStatus) :
    step st (Cmd.setStatus s)
      = if s = st.status then st else applyStatusEffect { st with status := s } := rfl

lemma step_setScroll_eq (st : EngineState) (q : ℚ) :
    step st (Cmd.setScrollPosition q)
      = if q = st.scrollPos then st else applyPanEffect { st with scrollPos := q } := rfl

lemma step_setMuted_isMuted (st : EngineState) (b : Bool) :
    (step st (Cmd.setMuted b)).isMuted = b := by
  rw [step_setMuted_eq]
  split_ifs with h
  · exact h.symm
  · rfl

lemma step_setMuted_mainGainT (st : EngineState) (b : Bool) (h : b ≠ st.isMuted) :
    (step st (Cmd.setMuted b)).targets.mainGainT = if b then 0 else 2/5 := by
  rw [step_setMuted_eq, if_neg h]
  rfl

lemma step_setProfile_profile (st : EngineState) (p : String) :
    (step st (Cmd.setProfile p)).profile = p := by
  rw [step_setProfile_eq]
  split_ifs with h
  · exact h.symm
  · unfold applyProfileEffect
    cases profileRoutine ({ st with profile := p } : EngineState).profile <;> rfl

/-- C2: setScrollPosition(p) schedules the panner target
(p / 50) - 1 via setTargetAtTime with a 0.1 s time constant; the value the
panner takes is that target clamped to the nominal range -1..1, so p = 0,
50, 100 give pans -1, 0, 1, out-of-range inputs are clamped rather than
rejected, and inside 0..100 the clamp is the identity. -/
theorem spec_C2 (p now : ℚ) :
    panEffect p now
        = (ParamId.pan, AutomationEvent.setTargetAtTime (p / 50 - 1) now (1/10))
      ∧ appliedPan p = clampPan (p / 50 - 1)
      ∧ appliedPan 0 = -1 ∧ appliedPan 50 = 0 ∧ appliedPan 100 = 1
      ∧ appliedPan 150 = 1 ∧ appliedPan (-50) = -1
      ∧ (0 ≤ p → p ≤ 100 → appliedPan p = p / 50 - 1) := by
  refine ⟨rfl, rfl, by norm_num [appliedPan, clampPan],
    by norm_num [appliedPan, clampPan], by norm_num [appliedPan, clampPan],
    by norm_num [appliedPan, clampPan], by norm_num [appliedPan, clampPan], ?_⟩
  intro h0 h1
  have h0' : (0 : ℚ) ≤ p / 50 := div_nonneg h0 (by norm_num)
  have h1' : p / 50 ≤ 2 := by
    rw [div_le_iff₀ (by norm_num : (0:ℚ) < 50)]
    linarith
  unfold appliedPan clampPan
  split_ifs with ha hb
  · linarith
  · linarith
  · rfl

/-- Witness for C2 at the in-range scroll position 75. -/
theorem spec_C2_witness :
    (0 : ℚ) ≤ 75 ∧ (75 : ℚ) ≤ 100 ∧ appliedPan 75 = 75 / 50 - 1 :=
  ⟨by decide, by decide,
    (spec_C2 75 0).2.2.2.2.2.2.2 (by decide) (by decide)⟩

/-- C6: setMuted schedules the master gain toward 0 (muted) or the fixed
nominal 0.4 (unmuted) by an exponential approach with time constant 0.1 s;
muting then unmuting leaves the master-gain target at 0.4 whatever else
happened before, and repeating a setMuted call is the same as making it
once. -/
theorem spec_C6 (b m : Bool) (now q : ℚ) (p : String) (s : BotLockStatus)
    (cmds : List Cmd) :
    muteEffect b now = (ParamId.mainGainG,
        AutomationEvent.setTargetAtTime (if b then 0 else 2/5) now (1/10))
      ∧ (run (mount p s q m)
          (cmds ++ [Cmd.setMuted true, Cmd.setMuted false])).targets.mainGainT = 2/5
      ∧ run (mount p s q m) (cmds ++ [Cmd.setMuted b, Cmd.setMuted b])
          = run (mount p s q m) (cmds ++ [Cmd.setMuted b]) := by
  refine ⟨rfl, ?_, ?_⟩
  · rw [run_append]
    set st1 := run (mount p s q m) cmds with hst1
    show (step (step st1 (Cmd.setMuted true)) (Cmd.setMuted false)).targets.mainGainT = 2/5
    have h1 : (step st1 (Cmd.setMuted true)).isMuted = true :=
      step_setMuted_isMuted st1 true
    rw [step_setMuted_mainGainT _ false (by rw [h1]; simp)]
    rfl
  · rw [run_append, run_append]
    set st1 := run (mount p s q m) cmds with hst1
    show step (step st1 (Cmd.setMuted b)) (Cmd.setMuted b) = step st1 (Cmd.setMuted b)
    have h1 : (step st1 (Cmd.setMuted b)).isMuted = b := step_setMuted_isMuted st1 b
    rw [step_setMuted_eq (step st1 (Cmd.setMuted b)) b, if_pos h1.symm]

/-- C1: the profile effect always schedules the three baseline smoothed
transitions first (resonance toward 1, noise gain toward 0.5, drone gain
toward 0.2), every automation call it makes is a setTargetAtTime at now
with a half-second time constant, and the Electronic branch yields a
highpass filter with cutoff target 3000, noise-gain target 0.4, bank slots
sawtooth/440, square/880, sine/1760 and installs the 600 ms glitch
routine (also live in the engine after setProfile Electronic). -/
theorem spec_C1 (p : String) (now : ℚ) (t : Targets) :
    (profileEffectEvents p now).take 3 = defaultEvents now
      ∧ ((profileEffectEvents p now).all fun e => isSmoothedAt now (1/2) e.2) = true
      ∧ profileEffectTargets "Electronic" t
          = { applyBaseline t with
              filterT := FilterType.highpass, filterFreqT := 3000,
              noiseGainT := 2/5,
              bank0 := (WaveType.sawtooth, 440),
              bank1 := (WaveType.square, 880),
              bank2 := (WaveType.sine, 1760) }
      ∧ profileRoutine "Electronic" = some ⟨RoutineKind.electronicGlitch, 600⟩
      ∧ axisTimers Axis.profileAxis
          (run (mount "Natural" BotLockStatus.UNLOCKED 75 false)
            [Cmd.setProfile "Electronic"])
          = [⟨1, Axis.profileAxis, ⟨RoutineKind.electronicGlitch, 600⟩⟩] := by
  refine ⟨?_, ?_, rfl, rfl, rfl⟩
  · unfold profileEffectEvents
    exact List.take_left' rfl
  · unfold profileEffectEvents defaultEvents
    split_ifs <;> simp [isSmoothedAt]

/-- C8: an unrecognized profile identifier falls through the switch: only
the baseline smoothed defaults are applied, no profile routine is
installed, and the profile effect leaves the engine with no profile
interval handle (it only clears the previous one); the model is total, so
no error is raised. -/
theorem spec_C8 (p : String)
    (hp : p ∉ ["Natural", "Industrial", "Void", "Electronic", "Hostile"]) :
    (∀ t, profileEffectTargets p t = applyBaseline t)
      ∧ profileRoutine p = none
      ∧ (∀ now, profileEffectEvents p now = defaultEvents now)
      ∧ (∀ st : EngineState, st.profile = p →
          (applyProfileEffect st).profileTimerId = none
            ∧ (applyProfileEffect st).timers = clearTimer st.profileTimerId st.timers) := by
  simp only [List.mem_cons, List.not_mem_nil, or_false, not_or] at hp
  obtain ⟨h1, h2, h3, h4, h5⟩ := hp
  have hr : profileRoutine p = none := by
    unfold profileRoutine
    rw [if_neg h1, if_neg h2, if_neg h3, if_neg h4, if_neg h5]
  refine ⟨?_, hr, ?_, ?_⟩
  · intro t
    unfold profileEffectTargets
    rw [if_neg h1, if_neg h2, if_neg h3, if_neg h4, if_neg h5]
  · intro now
    unfold profileEffectEvents
    rw [if_neg h1, if_neg h2, if_neg h3, if_neg h4, if_neg h5]
    simp
  · intro st hst
    unfold applyProfileEffect
    rw [hst, hr]
    exact ⟨rfl, rfl⟩

/-- Witness for C8 at the unrecognized profile Jazz. -/
theorem spec_C8_witness :
    "Jazz" ∉ ["Natural", "Industrial", "Void", "Electronic", "Hostile"]
      ∧ profileRoutine "Jazz" = none
      ∧ profileEffectTargets "Jazz" (constructionTargets false)
          = applyBaseline (constructionTargets false) :=
  ⟨by decide, (spec_C8 "Jazz" (by decide)).2.1,
    (spec_C8 "Jazz" (by decide)).1 (constructionTargets false)⟩

/-- C5 counterexample: the claim says no periodic-routine tick ever writes
a parameter value instantaneously, but a tick of the Industrial pulse
routine starts with dGain.gain.setValueAtTime(0.15, t), an instantaneous
write. -/
theorem spec_C5_counterexample :
    ¬ (∀ e ∈ industrialTick 0, isInstantaneousEvent e.2 = false) := by
  intro h
  have := h (ParamId.droneGainG, AutomationEvent.setValueAtTime (3/20) 0)
    (by simp [industrialTick])
  simp [isInstantaneousEvent] at this

/-- C5 as amended: every control-surface mutation (mute, pan, status
alarm-gain change, and all automation calls of the profile effect body) is
a scheduled transition with an explicit time constant, and the Natural and
Hostile routine ticks schedule only ramped or smoothed transitions; but
the Industrial pulse, Electronic glitch and OVERRIDE sweep ticks each
contain an instantaneous setValueAtTime write, and graph construction
assigns initial gain values directly. -/
theorem spec_C5_amended (b : Bool) (p : String) (s : BotLockStatus)
    (q now rand orig : ℚ) (slot : Fin 3) (current rnd : Fin 3 → ℚ) :
    isInstantaneousEvent (muteEffect b now).2 = false
      ∧ isInstantaneousEvent (panEffect q now).2 = false
      ∧ isInstantaneousEvent (statusEffect s now).1.2 = false
      ∧ ((profileEffectEvents p now).all fun e => !isInstantaneousEvent e.2) = true
      ∧ ((naturalTick now rand).all fun e => !isInstantaneousEvent e.2) = true
      ∧ ((hostileTick now current rnd).all fun e => !isInstantaneousEvent e.2) = true
      ∧ ((industrialTick now).any fun e => isInstantaneousEvent e.2) = true
      ∧ ((electronicTick now slot rand orig).any fun e => isInstantaneousEvent e.2) = true
      ∧ ((alarmSweepTick now).any fun e => isInstantaneousEvent e.2) = true
      ∧ ((constructionEvents b).all fun e => isInstantaneousEvent e.2) = true := by
  refine ⟨rfl, rfl, ?_, ?_, rfl, ?_, rfl, rfl, rfl, ?_⟩
  · unfold statusEffect
    split_ifs <;> rfl
  · unfold profileEffectEvents defaultEvents
    split_ifs <;> simp [isInstantaneousEvent]
  · unfold hostileTick
    simp [isInstantaneousEvent, List.finRange]
  · unfold constructionEvents
    simp [isInstantaneousEvent]

lemma withRetry_ok {α : Type} (fn : ℕ → Except String α)
    (retries delay attempt : ℕ) (v : α) (h : fn attempt = Except.ok v) :
    withRetry fn retries delay attempt = (Except.ok v, []) := by
  cases retries <;> (unfold withRetry; rw [h])

lemma withRetry_zero_error {α : Type} (fn : ℕ → Except String α)
    (delay attempt : ℕ) (e : String) (h : fn attempt = Except.error e) :
    withRetry fn 0 delay attempt = (Except.error e, []) := by
  unfold withRetry
  rw [h]

lemma withRetry_error_noretry {α : Type} (fn : ℕ → Except String α)
    (retries delay attempt : ℕ) (e : String) (h : fn attempt = Except.error e)
    (hq : isQuotaError e = false) :
    withRetry fn retries delay attempt = (Except.error e, []) := by
  cases retries with
  | zero => exact withRetry_zero_error fn delay attempt e h
  | succ r =>
    have hbody : withRetry fn (r + 1) delay attempt
        = if isQuotaError e then
            ((withRetry fn r (delay * 2) (attempt + 1)).1,
              delay :: (withRetry fn r (delay * 2) (attempt + 1)).2)
          else (Except.error e, []) := by
      conv_lhs => unfold withRetry
      rw [h]
    rw [hbody, hq]
    simp

lemma withRetry_error_retry {α : Type} (fn : ℕ → Except String α)
    (r delay attempt : ℕ) (e : String) (h : fn attempt = Except.error e)
    (hq : isQuotaError e = true) :
    withRetry fn (r + 1) delay attempt
      = ((withRetry fn r (delay * 2) (attempt + 1)).1,
          delay :: (withRetry fn r (delay * 2) (attempt + 1)).2) := by
  have hbody : withRetry fn (r + 1) delay attempt
      = if isQuotaError e then
          ((withRetry fn r (delay * 2) (attempt + 1)).1,
            delay :: (withRetry fn r (delay * 2) (attempt + 1)).2)
        else (Except.error e, []) := by
    conv_lhs => unfold withRetry
    rw [h]
  rw [hbody, hq]
  simp

/-- C9: the retry wrapper propagates a non-quota first failure unmodified
with no backoff sleep; it never sleeps more than twice and its sleeps are
always an initial segment of 2000 ms, 4000 ms; three consecutive quota
failures exhaust the budget and the final quota error is propagated
unmodified after exactly the sleeps 2000 ms and 4000 ms; and a non-quota
failure after one quota retry is likewise propagated unmodified. -/
theorem spec_C9 {α : Type} (fn : ℕ → Except String α) :
    (∀ e, fn 0 = Except.error e → isQuotaError e = false →
        withRetryDefault fn = (Except.error e, []))
      ∧ (withRetryDefault fn).2.length ≤ 2
      ∧ (withRetryDefault fn).2
          = [2000, 4000].take (withRetryDefault fn).2.length
      ∧ (∀ e0 e1 e2, fn 0 = Except.error e0 → isQuotaError e0 = true →
          fn 1 = Except.error e1 → isQuotaError e1 = true →
          fn 2 = Except.error e2 → isQuotaError e2 = true →
          withRetryDefault fn = (Except.error e2, [2000, 4000]))
      ∧ (∀ e0 e1, fn 0 = Except.error e0 → isQuotaError e0 = true →
          fn 1 = Except.error e1 → isQuotaError e1 = false →
          withRetryDefault fn = (Except.error e1, [2000])) := by
  have hlen : (withRetryDefault fn).2 = [] ∨ (withRetryDefault fn).2 = [2000]
      ∨ (withRetryDefault fn).2 = [2000, 4000] := by
    unfold withRetryDefault
    rcases h0 : fn 0 with e0 | v0
    · cases hq0 : isQuotaError e0
      · rw [withRetry_error_noretry fn 2 2000 0 e0 h0 hq0]
        exact Or.inl rfl
      · rw [withRetry_error_retry fn 1 2000 0 e0 h0 hq0]
        rcases h1 : fn 1 with e1 | v1
        · cases hq1 : isQuotaError e1
          · rw [withRetry_error_noretry fn 1 4000 1 e1 h1 hq1]
            exact Or.inr (Or.inl rfl)
          · rw [withRetry_error_retry fn 0 4000 1 e1 h1 hq1]
            rcases h2 : fn 2 with e2 | v2
            · rw [withRetry_zero_error fn 8000 2 e2 h2]
              exact Or.inr (Or.inr rfl)
            · rw [withRetry_ok fn 0 8000 2 v2 h2]
              exact Or.inr (Or.inr rfl)
        · rw [withRetry_ok fn 1 4000 1 v1 h1]
          exact Or.inr (Or.inl rfl)
    · rw [withRetry_ok fn 2 2000 0 v0 h0]
      exact Or.inl rfl
  refine ⟨?_, ?_, ?_, ?_, ?_⟩
  · intro e he hqe
    exact withRetry_error_noretry fn 2 2000 0 e he hqe
  · rcases hlen with h | h | h <;> rw [h] <;> simp
  · rcases hlen with h | h | h <;> rw [h] <;> rfl
  · intro e0 e1 e2 h0 hq0 h1 hq1 h2 hq2
    unfold withRetryDefault
    rw [withRetry_error_retry fn 1 2000 0 e0 h0 hq0,
      withRetry_error_retry fn 0 4000 1 e1 h1 hq1,
      withRetry_zero_error fn 8000 2 e2 h2]
  · intro e0 e1 h0 hq0 h1 hq1
    unfold withRetryDefault
    rw [withRetry_error_retry fn 1 2000 0 e0 h0 hq0,
      withRetry_error_noretry fn 1 4000 1 e1 h1 hq1]

/-- Witness for C9: on a call that fails with a quota message on every
attempt, the wrapper sleeps 2000 ms then 4000 ms and propagates the final
quota error unmodified. -/
theorem spec_C9_witness :
    (fun _ : ℕ => (Except.error "quota" : Except String ℕ)) 0 = Except.error "quota"
      ∧ isQuotaError "quota" = true
      ∧ withRetryDefault (fun _ : ℕ => (Except.error "quota" : Except String ℕ))
          = (Except.error "quota", [2000, 4000]) :=
  ⟨rfl, rfl,
    (spec_C9 (fun _ : ℕ => (Except.error "quota" : Except String ℕ))).2.2.2.1
      "quota" "quota" "quota" rfl rfl rfl rfl rfl rfl⟩

/-- C10: an Electronic glitch tick that fires while the selected
oscillator frequency is still gliding (decay factor d strictly between 0
and 1, start value v0 different from the table target v1) schedules
exactly two instantaneous setValueAtTime writes — the random jump at t1
and, 0.05 s later, the mid-transition value c it read at the tick — and c
is not the table frequency v1; from t1 + 0.05 on the parameter stays at c,
the pending glide toward v1 having been superseded by the setValueAtTime
events. -/
theorem spec_C10 (v0 v1 d t1 r c : ℚ) (slot : Fin 3) (dfun : ℚ → ℚ)
    (hd0 : 0 < d) (hd1 : d < 1) (hne : v0 ≠ v1)
    (hc : c = setTargetValue v0 v1 d) :
    electronicTick t1 slot r c
        = [ (ParamId.bankFreq slot,
              AutomationEvent.setValueAtTime (100 + r * 5000) t1),
            (ParamId.bankFreq slot,
              AutomationEvent.setValueAtTime c (t1 + 1/20)) ]
      ∧ isInstantaneousEvent (AutomationEvent.setValueAtTime c (t1 + 1/20)) = true
      ∧ c ≠ v1
      ∧ (∀ t, t1 + 1/20 ≤ t → paramValueAfterGlitch v0 v1 dfun t1 r c t = c) := by
  refine ⟨rfl, rfl, ?_, ?_⟩
  · rw [hc]
    unfold setTargetValue
    intro habs
    have hz : (v0 - v1) * d = 0 := by linarith
    rcases mul_eq_zero.mp hz with h | h
    · exact hne (by linarith)
    · exact absurd h (ne_of_gt hd0)
  · intro t ht
    unfold paramValueAfterGlitch
    have h1 : ¬ t < t1 := by
      intro habs
      have : (0:ℚ) < 1/20 := by norm_num
      linarith
    have h2 : ¬ t < t1 + 1/20 := not_lt.mpr ht
    rw [if_neg h1, if_neg h2]

/-- Witness for C10: a tick firing half-way through the glide from the
Natural slot-0 frequency 120 toward the Electronic table frequency 440
reads and restores 280, not 440. -/
theorem spec_C10_witness :
    (0:ℚ) < 1/2 ∧ (1/2:ℚ) < 1 ∧ (120:ℚ) ≠ 440
      ∧ setTargetValue 120 440 (1/2) ≠ 440
      ∧ paramValueAfterGlitch 120 440 (fun _ => 1/2) 0 2000
          (setTargetValue 120 440 (1/2)) (1/20) = setTargetValue 120 440 (1/2) :=
  ⟨one_half_pos, one_half_lt_one, by decide,
    (spec_C10 120 440 (1/2) 0 2000 (setTargetValue 120 440 (1/2)) 0 (fun _ => 1/2)
      one_half_pos one_half_lt_one (by decide) rfl).2.2.1,
    (spec_C10 120 440 (1/2) 0 2000 (setTargetValue 120 440 (1/2)) 0 (fun _ => 1/2)
      one_half_pos one_half_lt_one (by decide) rfl).2.2.2 (1/20) (by simp)⟩

lemma mem_axisFilter {a : Axis} {ts : List Timer} {tm : Timer} :
    tm ∈ axisFilter a ts ↔ tm ∈ ts ∧ tm.axis = a := by
  simp [axisFilter]

lemma axisFilter_append (a : Axis) (l1 l2 : List Timer) :
    axisFilter a (l1 ++ l2) = axisFilter a l1 ++ axisFilter a l2 := by
  simp [axisFilter]

lemma clearTimer_sublist (h : Option ℕ) (ts : List Timer) :
    List.Sublist (clearTimer h ts) ts := by
  cases h with
  | none => exact List.Sublist.refl ts
  | some i => exact List.filter_sublist ts

lemma axisFilter_clearTimer (a : Axis) (h : Option ℕ) (ts : List Timer) :
    axisFilter a (clearTimer h ts) = clearTimer h (axisFilter a ts) := by
  cases h with
  | none => rfl
  | some i =>
    unfold clearTimer axisFilter
    dsimp only
    rw [List.filter_filter, List.filter_filter]
    congr 1
    funext tm
    rw [Bool.and_comm]

lemma axisFilter_of_handle {a : Axis} {ts : List Timer} {i : ℕ}
    (hcorr : ((axisFilter a ts).map fun tm => tm.id) = [i]) :
    ∃ tm0, axisFilter a ts = [tm0] ∧ tm0.id = i ∧ tm0 ∈ ts ∧ tm0.axis = a := by
  cases hL : axisFilter a ts with
  | nil =>
    rw [hL] at hcorr
    simp at hcorr
  | cons x xs =>
    rw [hL] at hcorr
    simp only [List.map_cons, List.cons.injEq] at hcorr
    obtain ⟨hx, hxs⟩ := hcorr
    have hxs' : xs = [] := List.map_eq_nil_iff.mp hxs
    have hmem : x ∈ axisFilter a ts := by
      rw [hL]
      exact List.mem_cons_self x xs
    obtain ⟨hm1, hm2⟩ := mem_axisFilter.mp hmem
    exact ⟨x, by rw [hxs'], hx, hm1, hm2⟩

lemma clear_axis_empty {a : Axis} {ts : List Timer} {h : Option ℕ}
    (hcorr : ((axisFilter a ts).map fun tm => tm.id) = h.toList) :
    axisFilter a (clearTimer h ts) = [] := by
  rw [axisFilter_clearTimer]
  cases h with
  | none =>
    simp only [Option.toList_none] at hcorr
    have : axisFilter a ts = [] := List.map_eq_nil_iff.mp hcorr
    rw [this]
    rfl
  | some i =>
    simp only [Option.toList_some] at hcorr
    obtain ⟨tm0, hL, hid, -, -⟩ := axisFilter_of_handle hcorr
    rw [hL]
    simp [clearTimer, hid]

lemma clear_other_axis {a b : Axis} (hab : a ≠ b) {ts : List Timer} {h : Option ℕ}
    (hnd : (ts.map fun tm => tm.id).Nodup)
    (hcorr : ((axisFilter b ts).map fun tm => tm.id) = h.toList) :
    axisFilter a (clearTimer h ts) = axisFilter a ts := by
  cases h with
  | none => rfl
  | some i =>
    simp only [Option.toList_some] at hcorr
    obtain ⟨tm0, hL, hid, hmem0, hax0⟩ := axisFilter_of_handle hcorr
    rw [axisFilter_clearTimer]
    unfold clearTimer
    apply List.filter_eq_self.mpr
    intro tm htm
    obtain ⟨hm1, hm2⟩ := mem_axisFilter.mp htm
    simp only [decide_eq_true_eq]
    intro hcon
    have heq : tm = tm0 :=
      List.inj_on_of_nodup_map hnd hm1 hmem0 (by rw [hcon, hid])
    apply hab
    rw [← hm2, heq, hax0]

lemma winv_applyMuteEffect {st : EngineState} (h : WInv st) :
    WInv (applyMuteEffect st) :=
  ⟨h.idsLt, h.idsNodup, h.profIds, h.statIds⟩

lemma winv_applyPanEffect {st : EngineState} (h : WInv st) :
    WInv (applyPanEffect st) :=
  ⟨h.idsLt, h.idsNodup, h.profIds, h.statIds⟩

lemma profok_applyMuteEffect {st : EngineState} (h : ProfOk st) :
    ProfOk (applyMuteEffect st) := h

lemma profok_applyPanEffect {st : EngineState} (h : ProfOk st) :
    ProfOk (applyPanEffect st) := h

lemma statok_applyMuteEffect {st : EngineState} (h : StatOk st) :
    StatOk (applyMuteEffect st) := h

lemma statok_applyPanEffect {st : EngineState} (h : StatOk st) :
    StatOk (applyPanEffect st) := h

lemma alarmok_applyMuteEffect {st : EngineState} (h : AlarmOk st) :
    AlarmOk (applyMuteEffect st) := h

lemma alarmok_applyPanEffect {st : EngineState} (h : AlarmOk st) :
    AlarmOk (applyPanEffect st) := h

lemma applyStatusEffect_over {st : EngineState}
    (h : st.status = BotLockStatus.OVERRIDE) :
    applyStatusEffect st = { st with
      targets := { st.targets with alarmGainT := 1/10 },
      timers := clearTimer st.statusTimerId st.timers
        ++ [⟨st.nextId, Axis.statusAxis, ⟨RoutineKind.alarmSweep, 1000⟩⟩],
      nextId := st.nextId + 1,
      statusTimerId := some st.nextId } := by
  unfold applyStatusEffect
  rw [if_pos h]

lemma applyStatusEffect_not {st : EngineState}
    (h : ¬ st.status = BotLockStatus.OVERRIDE) :
    applyStatusEffect st = { st with
      targets := { st.targets with alarmGainT := 0 },
      timers := clearTimer st.statusTimerId st.timers,
      statusTimerId := none } := by
  unfold applyStatusEffect
  rw [if_neg h]

lemma axisFilter_singleton_eq {a : Axis} {tm : Timer} (h : tm.axis = a) :
    axisFilter a [tm] = [tm] := by
  simp [axisFilter, h]

lemma axisFilter_singleton_ne {a : Axis} {tm : Timer} (h : ¬ tm.axis = a) :
    axisFilter a [tm] = [] := by
  simp [axisFilter, h]

lemma status_main {st : EngineState} (w : WInv st) :
    WInv (applyStatusEffect st) ∧ StatOk (applyStatusEffect st)
      ∧ AlarmOk (applyStatusEffect st)
      ∧ (ProfOk st → ProfOk (applyStatusEffect st)) := by
  have hab : Axis.profileAxis ≠ Axis.statusAxis := by decide
  have hF1 : axisFilter Axis.statusAxis (clearTimer st.statusTimerId st.timers) = [] :=
    clear_axis_empty w.statIds
  have hF2 : axisFilter Axis.profileAxis (clearTimer st.statusTimerId st.timers)
      = axisFilter Axis.profileAxis st.timers :=
    clear_other_axis hab w.idsNodup w.statIds
  have hsub := clearTimer_sublist st.statusTimerId st.timers
  by_cases hs : st.status = BotLockStatus.OVERRIDE
  · rw [applyStatusEffect_over hs]
    refine ⟨⟨?_, ?_, ?_, ?_⟩, ?_, ?_, ?_⟩
    · intro tm htm
      show tm.id < st.nextId + 1
      rcases List.mem_append.mp htm with hmem | hmem
      · exact Nat.lt_succ_of_lt (w.idsLt tm (hsub.subset hmem))
      · rw [List.mem_singleton.mp hmem]
        exact Nat.lt_succ_self _
    · show (((clearTimer st.statusTimerId st.timers
          ++ [⟨st.nextId, Axis.statusAxis, ⟨RoutineKind.alarmSweep, 1000⟩⟩] : List Timer)).map
            fun tm => tm.id).Nodup
      rw [List.map_append, List.nodup_append]
      refine ⟨(hsub.map _).nodup w.idsNodup, List.nodup_singleton _, ?_⟩
      intro a ha hb
      simp only [List.map_cons, List.map_nil, List.mem_singleton] at hb
      obtain ⟨tm, htm, htmid⟩ := List.mem_map.mp ha
      have hlt := w.idsLt tm (hsub.subset htm)
      omega
    · show ((axisFilter Axis.profileAxis (clearTimer st.statusTimerId st.timers
          ++ [⟨st.nextId, Axis.statusAxis, ⟨RoutineKind.alarmSweep, 1000⟩⟩])).map
            fun tm => tm.id) = st.profileTimerId.toList
      rw [axisFilter_append, hF2, axisFilter_singleton_ne (by simp), List.append_nil]
      exact w.profIds
    · show ((axisFilter Axis.statusAxis (clearTimer st.statusTimerId st.timers
          ++ [⟨st.nextId, Axis.statusAxis, ⟨RoutineKind.alarmSweep, 1000⟩⟩])).map
            fun tm => tm.id) = (some st.nextId).toList
      rw [axisFilter_append, hF1]
      rfl
    · show ((axisFilter Axis.statusAxis (clearTimer st.statusTimerId st.timers
          ++ [⟨st.nextId, Axis.statusAxis, ⟨RoutineKind.alarmSweep, 1000⟩⟩])).map
            fun tm => tm.spec)
        = if st.status = BotLockStatus.OVERRIDE
          then [⟨RoutineKind.alarmSweep, 1000⟩] else []
      rw [axisFilter_append, hF1, if_pos hs]
      rfl
    · show (1 : ℚ)/10
        = if st.status = BotLockStatus.OVERRIDE then (1 : ℚ)/10 else 0
      rw [if_pos hs]
    · intro hp
      show ((axisFilter Axis.profileAxis (clearTimer st.statusTimerId st.timers
          ++ [⟨st.nextId, Axis.statusAxis, ⟨RoutineKind.alarmSweep, 1000⟩⟩])).map
            fun tm => tm.spec) = (profileRoutine st.profile).toList
      rw [axisFilter_append, hF2, axisFilter_singleton_ne (by simp), List.append_nil]
      exact hp
  · rw [applyStatusEffect_not hs]
    refine ⟨⟨?_, ?_, ?_, ?_⟩, ?_, ?_, ?_⟩
    · intro tm htm
      exact w.idsLt tm (hsub.subset htm)
    · exact (hsub.map _).nodup w.idsNodup
    · show ((axisFilter Axis.profileAxis (clearTimer st.statusTimerId st.timers)).map
          fun tm => tm.id) = st.profileTimerId.toList
      rw [hF2]
      exact w.profIds
    · show ((axisFilter Axis.statusAxis (clearTimer st.statusTimerId st.timers)).map
          fun tm => tm.id) = (none : Option ℕ).toList
      rw [hF1]
      rfl
    · show ((axisFilter Axis.statusAxis (clearTimer st.statusTimerId st.timers)).map
          fun tm => tm.spec)
        = if st.status = BotLockStatus.OVERRIDE
          then [⟨RoutineKind.alarmSweep, 1000⟩] else []
      rw [hF1, if_neg hs]
      rfl
    · show (0 : ℚ)
        = if st.status = BotLockStatus.OVERRIDE then (1 : ℚ)/10 else 0
      rw [if_neg hs]
    · intro hp
      show ((axisFilter Axis.profileAxis (clearTimer st.statusTimerId st.timers)).map
          fun tm => tm.spec) = (profileRoutine st.profile).toList
      rw [hF2]
      exact hp

lemma applyProfileEffect_some {st : EngineState} {spec : RoutineSpec}
    (hr : profileRoutine st.profile = some spec) :
    applyProfileEffect st = { st with
      targets := profileEffectTargets st.profile st.targets,
      timers := clearTimer st.profileTimerId st.timers
        ++ [⟨st.nextId, Axis.profileAxis, spec⟩],
      nextId := st.nextId + 1,
      profileTimerId := some st.nextId } := by
  unfold applyProfileEffect
  rw [hr]

lemma applyProfileEffect_none {st : EngineState}
    (hr : profileRoutine st.profile = none) :
    applyProfileEffect st = { st with
      targets := profileEffectTargets st.profile st.targets,
      timers := clearTimer st.profileTimerId st.timers,
      profileTimerId := none } := by
  unfold applyProfileEffect
  rw [hr]

lemma profileEffectTargets_alarmGainT (p : String) (t : Targets) :
    (profileEffectTargets p t).alarmGainT = t.alarmGainT := by
  unfold profileEffectTargets applyBaseline
  split_ifs <;> rfl

lemma profile_main {st : EngineState} (w : WInv st) :
    WInv (applyProfileEffect st) ∧ ProfOk (applyProfileEffect st)
      ∧ (StatOk st → StatOk (applyProfileEffect st))
      ∧ (AlarmOk st → AlarmOk (applyProfileEffect st)) := by
  have hab : Axis.statusAxis ≠ Axis.profileAxis := by decide
  have hF1 : axisFilter Axis.profileAxis (clearTimer st.profileTimerId st.timers) = [] :=
    clear_axis_empty w.profIds
  have hF2 : axisFilter Axis.statusAxis (clearTimer st.profileTimerId st.timers)
      = axisFilter Axis.statusAxis st.timers :=
    clear_other_axis hab w.idsNodup w.profIds
  have hsub := clearTimer_sublist st.profileTimerId st.timers
  cases hr : profileRoutine st.profile with
  | some spec =>
    have hnil : axisFilter Axis.statusAxis
        [(⟨st.nextId, Axis.profileAxis, spec⟩ : Timer)] = [] := rfl
    rw [applyProfileEffect_some hr]
    refine ⟨⟨?_, ?_, ?_, ?_⟩, ?_, ?_, ?_⟩
    · intro tm htm
      show tm.id < st.nextId + 1
      rcases List.mem_append.mp htm with hmem | hmem
      · exact Nat.lt_succ_of_lt (w.idsLt tm (hsub.subset hmem))
      · rw [List.mem_singleton.mp hmem]
        exact Nat.lt_succ_self _
    · show (((clearTimer st.profileTimerId st.timers
          ++ [⟨st.nextId, Axis.profileAxis, spec⟩] : List Timer)).map
            fun tm => tm.id).Nodup
      rw [List.map_append, List.nodup_append]
      refine ⟨(hsub.map _).nodup w.idsNodup, List.nodup_singleton _, ?_⟩
      intro a ha hb
      simp only [List.map_cons, List.map_nil, List.mem_singleton] at hb
      obtain ⟨tm, htm, htmid⟩ := List.mem_map.mp ha
      have hlt := w.idsLt tm (hsub.subset htm)
      omega
    · show ((axisFilter Axis.profileAxis (clearTimer st.profileTimerId st.timers
          ++ [⟨st.nextId, Axis.profileAxis, spec⟩])).map
            fun tm => tm.id) = (some st.nextId).toList
      rw [axisFilter_append, hF1]
      rfl
    · show ((axisFilter Axis.statusAxis (clearTimer st.profileTimerId st.timers
          ++ [⟨st.nextId, Axis.profileAxis, spec⟩])).map
            fun tm => tm.id) = st.statusTimerId.toList
      rw [axisFilter_append, hF2, hnil, List.append_nil]
      exact w.statIds
    · show ((axisFilter Axis.profileAxis (clearTimer st.profileTimerId st.timers
          ++ [⟨st.nextId, Axis.profileAxis, spec⟩])).map
            fun tm => tm.spec) = (profileRoutine st.profile).toList
      rw [axisFilter_append, hF1, hr]
      rfl
    · intro hst
      show ((axisFilter Axis.statusAxis (clearTimer st.profileTimerId st.timers
          ++ [⟨st.nextId, Axis.profileAxis, spec⟩])).map
            fun tm => tm.spec)
        = if st.status = BotLockStatus.OVERRIDE
          then [⟨RoutineKind.alarmSweep, 1000⟩] else []
      rw [axisFilter_append, hF2, hnil, List.append_nil]
      exact hst
    · intro hal
      show (profileEffectTargets st.profile st.targets).alarmGainT
        = if st.status = BotLockStatus.OVERRIDE then (1 : ℚ)/10 else 0
      rw [profileEffectTargets_alarmGainT]
      exact hal
  | none =>
    rw [applyProfileEffect_none hr]
    refine ⟨⟨?_, ?_, ?_, ?_⟩, ?_, ?_, ?_⟩
    · intro tm htm
      exact w.idsLt tm (hsub.subset htm)
    · exact (hsub.map _).nodup w.idsNodup
    · show ((axisFilter Axis.profileAxis (clearTimer st.profileTimerId st.timers)).map
          fun tm => tm.id) = (none : Option ℕ).toList
      rw [hF1]
      rfl
    · show ((axisFilter Axis.statusAxis (clearTimer st.profileTimerId st.timers)).map
          fun tm => tm.id) = st.statusTimerId.toList
      rw [hF2]
      exact w.statIds
    · show ((axisFilter Axis.profileAxis (clearTimer st.profileTimerId st.timers)).map
          fun tm => tm.spec) = (profileRoutine st.profile).toList
      rw [hF1, hr]
      rfl
    · intro hst
      show ((axisFilter Axis.statusAxis (clearTimer st.profileTimerId st.timers)).map
          fun tm => tm.spec)
        = if st.status = BotLockStatus.OVERRIDE
          then [⟨RoutineKind.alarmSweep, 1000⟩] else []
      rw [hF2]
      exact hst
    · intro hal
      show (profileEffectTargets st.profile st.targets).alarmGainT
        = if st.status = BotLockStatus.OVERRIDE then (1 : ℚ)/10 else 0
      rw [profileEffectTargets_alarmGainT]
      exact hal

lemma reach_step {st : EngineState} (h : Reach st) (c : Cmd) : Reach (step st c) := by
  obtain ⟨w, hp, hs, ha⟩ := h
  cases c with
  | setMuted b =>
    rw [step_setMuted_eq]
    split_ifs with hb
    · exact ⟨w, hp, hs, ha⟩
    · exact ⟨winv_applyMuteEffect ⟨w.idsLt, w.idsNodup, w.profIds, w.statIds⟩,
        profok_applyMuteEffect hp, statok_applyMuteEffect hs,
        alarmok_applyMuteEffect ha⟩
  | setScrollPosition q =>
    rw [step_setScroll_eq]
    split_ifs with hb
    · exact ⟨w, hp, hs, ha⟩
    · exact ⟨winv_applyPanEffect ⟨w.idsLt, w.idsNodup, w.profIds, w.statIds⟩,
        profok_applyPanEffect hp, statok_applyPanEffect hs,
        alarmok_applyPanEffect ha⟩
  | setStatus s =>
    rw [step_setStatus_eq]
    split_ifs with hb
    · exact ⟨w, hp, hs, ha⟩
    · have w' : WInv { st with status := s } :=
        ⟨w.idsLt, w.idsNodup, w.profIds, w.statIds⟩
      obtain ⟨w2, hst2, hal2, hpp⟩ := status_main w'
      exact ⟨w2, hpp hp, hst2, hal2⟩
  | setProfile p =>
    rw [step_setProfile_eq]
    split_ifs with hb
    · exact ⟨w, hp, hs, ha⟩
    · have w' : WInv { st with profile := p } :=
        ⟨w.idsLt, w.idsNodup, w.profIds, w.statIds⟩
      obtain ⟨w2, hp2, hss, haa⟩ := profile_main w'
      exact ⟨w2, hp2, hss hs, haa ha⟩

lemma reach_mount (p : String) (s : BotLockStatus) (q : ℚ) (m : Bool) :
    Reach (mount p s q m) := by
  have w0 : WInv
      ({ profile := p, status := s, scrollPos := q, isMuted := m,
         targets := constructionTargets m, timers := [], nextId := 0,
         profileTimerId := none, statusTimerId := none } : EngineState) := by
    refine ⟨?_, List.nodup_nil, rfl, rfl⟩
    intro tm htm
    exact absurd htm (List.not_mem_nil tm)
  have w1 := winv_applyMuteEffect w0
  have w2 := winv_applyPanEffect w1
  obtain ⟨w3, hs3, ha3, -⟩ := status_main w2
  obtain ⟨w4, hp4, hss4, haa4⟩ := profile_main w3
  exact ⟨w4, hp4, hss4 hs3, haa4 ha3⟩

lemma reach_run_aux (cs : List Cmd) :
    ∀ st : EngineState, Reach st → Reach (run st cs) := by
  induction cs with
  | nil => exact fun st h => h
  | cons c cs ih => exact fun st h => ih (step st c) (reach_step h c)

lemma reach_run (p : String) (s : BotLockStatus) (q : ℚ) (m : Bool)
    (cs : List Cmd) : Reach (run (mount p s q m) cs) :=
  reach_run_aux cs (mount p s q m) (reach_mount p s q m)

lemma profOk_length_le_one {st : EngineState} (hp : ProfOk st) :
    (axisTimers Axis.profileAxis st).length ≤ 1 := by
  have hl := congrArg List.length hp
  rw [List.length_map] at hl
  cases hop : profileRoutine st.profile with
  | none =>
    rw [hop] at hl
    rw [hl]
    simp
  | some sp =>
    rw [hop] at hl
    rw [hl]
    simp

lemma statOk_length_le_one {st : EngineState} (hs : StatOk st) :
    (axisTimers Axis.statusAxis st).length ≤ 1 := by
  have hl := congrArg List.length hs
  rw [List.length_map] at hl
  by_cases hov : st.status = BotLockStatus.OVERRIDE
  · rw [if_pos hov] at hl
    rw [hl]
    simp
  · rw [if_neg hov] at hl
    rw [hl]
    simp

lemma step_setStatus_status (st : EngineState) (s : BotLockStatus) :
    (step st (Cmd.setStatus s)).status = s := by
  rw [step_setStatus_eq]
  split_ifs with h
  · exact h.symm
  · by_cases hov : ({ st with status := s } : EngineState).status = BotLockStatus.OVERRIDE
    · rw [applyStatusEffect_over hov]
    · rw [applyStatusEffect_not hov]

/-- C4: after any sequence of control-surface calls from a mounted engine,
at most one profile-axis and at most one status-axis periodic routine are
live; a state whose profile is Hostile has exactly the 50 ms jitter
routine live on the profile axis and a state whose status is OVERRIDE has
exactly the 1000 ms sweep routine live on the status axis; concretely,
after setProfile Hostile and setStatus OVERRIDE both are live at once,
one per axis. -/
theorem spec_C4 (p0 : String) (s0 : BotLockStatus) (q0 : ℚ) (m0 : Bool)
    (cmds : List Cmd) :
    (axisTimers Axis.profileAxis (run (mount p0 s0 q0 m0) cmds)).length ≤ 1
      ∧ (axisTimers Axis.statusAxis (run (mount p0 s0 q0 m0) cmds)).length ≤ 1
      ∧ ((run (mount p0 s0 q0 m0) cmds).profile = "Hostile" →
          ((axisTimers Axis.profileAxis (run (mount p0 s0 q0 m0) cmds)).map
              fun tm => tm.spec)
            = [⟨RoutineKind.hostileJitter, 50⟩])
      ∧ ((run (mount p0 s0 q0 m0) cmds).status = BotLockStatus.OVERRIDE →
          ((axisTimers Axis.statusAxis (run (mount p0 s0 q0 m0) cmds)).map
              fun tm => tm.spec)
            = [⟨RoutineKind.alarmSweep, 1000⟩])
      ∧ axisTimers Axis.profileAxis
          (run (mount "Natural" BotLockStatus.UNLOCKED 50 false)
            [Cmd.setProfile "Hostile", Cmd.setStatus BotLockStatus.OVERRIDE])
          = [⟨1, Axis.profileAxis, ⟨RoutineKind.hostileJitter, 50⟩⟩]
      ∧ axisTimers Axis.statusAxis
          (run (mount "Natural" BotLockStatus.UNLOCKED 50 false)
            [Cmd.setProfile "Hostile", Cmd.setStatus BotLockStatus.OVERRIDE])
          = [⟨2, Axis.statusAxis, ⟨RoutineKind.alarmSweep, 1000⟩⟩] := by
  obtain ⟨w, hp, hs, ha⟩ := reach_run p0 s0 q0 m0 cmds
  refine ⟨profOk_length_le_one hp, statOk_length_le_one hs, ?_, ?_, rfl, rfl⟩
  · intro hprof
    unfold ProfOk at hp
    rw [hprof] at hp
    exact hp.trans rfl
  · intro hstat
    unfold StatOk at hs
    rw [hstat] at hs
    exact hs.trans (if_pos rfl)

/-- Witness for C4 at the Hostile-plus-OVERRIDE scenario. -/
theorem spec_C4_witness :
    (run (mount "Natural" BotLockStatus.UNLOCKED 50 false)
        [Cmd.setProfile "Hostile", Cmd.setStatus BotLockStatus.OVERRIDE]).profile
        = "Hostile"
      ∧ (run (mount "Natural" BotLockStatus.UNLOCKED 50 false)
          [Cmd.setProfile "Hostile", Cmd.setStatus BotLockStatus.OVERRIDE]).status
          = BotLockStatus.OVERRIDE
      ∧ ((axisTimers Axis.profileAxis
          (run (mount "Natural" BotLockStatus.UNLOCKED 50 false)
            [Cmd.setProfile "Hostile", Cmd.setStatus BotLockStatus.OVERRIDE])).map
            fun tm => tm.spec)
          = [⟨RoutineKind.hostileJitter, 50⟩]
      ∧ ((axisTimers Axis.statusAxis
          (run (mount "Natural" BotLockStatus.UNLOCKED 50 false)
            [Cmd.setProfile "Hostile", Cmd.setStatus BotLockStatus.OVERRIDE])).map
            fun tm => tm.spec)
          = [⟨RoutineKind.alarmSweep, 1000⟩] :=
  ⟨rfl, rfl,
    (spec_C4 "Natural" BotLockStatus.UNLOCKED 50 false
      [Cmd.setProfile "Hostile", Cmd.setStatus BotLockStatus.OVERRIDE]).2.2.1 rfl,
    (spec_C4 "Natural" BotLockStatus.UNLOCKED 50 false
      [Cmd.setProfile "Hostile", Cmd.setStatus BotLockStatus.OVERRIDE]).2.2.2.1 rfl⟩

/-- C3: setting status OVERRIDE schedules the alarm gain toward 0.1
(time constant 0.1) and installs the 1000 ms sweep routine whose tick sets
the alarm frequency to 880 at the tick time and ramps it exponentially to
440 over 0.4 s; any other status schedules the alarm gain toward 0 and
ends with no status-axis routine live; in the engine, after setStatus s
the alarm-gain target and status-axis routines match s exactly. -/
theorem spec_C3 (s : BotLockStatus) (now t q0 : ℚ) (p0 : String)
    (s0 : BotLockStatus) (m0 : Bool) (cmds : List Cmd) :
    (s = BotLockStatus.OVERRIDE →
        statusEffect s now
          = ((ParamId.alarmGainG, AutomationEvent.setTargetAtTime (1/10) now (1/10)),
              some ⟨RoutineKind.alarmSweep, 1000⟩))
      ∧ (s ≠ BotLockStatus.OVERRIDE →
          statusEffect s now
            = ((ParamId.alarmGainG, AutomationEvent.setTargetAtTime 0 now (1/5)),
                none))
      ∧ alarmSweepTick t
          = [ (ParamId.alarmFreq, AutomationEvent.setValueAtTime 880 t),
              (ParamId.alarmFreq,
                AutomationEvent.exponentialRampToValueAtTime 440 (t + 2/5)) ]
      ∧ (run (mount p0 s0 q0 m0) (cmds ++ [Cmd.setStatus s])).status = s
      ∧ (s = BotLockStatus.OVERRIDE →
          (run (mount p0 s0 q0 m0) (cmds ++ [Cmd.setStatus s])).targets.alarmGainT
              = 1/10
            ∧ ((axisTimers Axis.statusAxis
                (run (mount p0 s0 q0 m0) (cmds ++ [Cmd.setStatus s]))).map
                  fun tm => tm.spec)
              = [⟨RoutineKind.alarmSweep, 1000⟩])
      ∧ (s ≠ BotLockStatus.OVERRIDE →
          (run (mount p0 s0 q0 m0) (cmds ++ [Cmd.setStatus s])).targets.alarmGainT
              = 0
            ∧ axisTimers Axis.statusAxis
                (run (mount p0 s0 q0 m0) (cmds ++ [Cmd.setStatus s])) = []) := by
  have hstat : (run (mount p0 s0 q0 m0) (cmds ++ [Cmd.setStatus s])).status = s := by
    rw [run_append]
    exact step_setStatus_status _ s
  obtain ⟨w, hp, hs, ha⟩ := reach_run p0 s0 q0 m0 (cmds ++ [Cmd.setStatus s])
  unfold StatOk at hs
  unfold AlarmOk at ha
  rw [hstat] at hs ha
  refine ⟨?_, ?_, rfl, hstat, ?_, ?_⟩
  · intro h
    unfold statusEffect
    rw [if_pos h]
  · intro h
    unfold statusEffect
    rw [if_neg h]
  · intro h
    refine ⟨?_, ?_⟩
    · rw [ha, if_pos h]
    · rw [hs, if_pos h]
  · intro h
    refine ⟨?_, ?_⟩
    · rw [ha, if_neg h]
    · rw [if_neg h] at hs
      exact List.map_eq_nil_iff.mp hs

/-- Witness for C3 at status OVERRIDE (install) and status LOCKED
(ramp-down and cancel). -/
theorem spec_C3_witness :
    statusEffect BotLockStatus.OVERRIDE 0
        = ((ParamId.alarmGainG, AutomationEvent.setTargetAtTime (1/10) 0 (1/10)),
            some ⟨RoutineKind.alarmSweep, 1000⟩)
      ∧ statusEffect BotLockStatus.LOCKED 0
          = ((ParamId.alarmGainG, AutomationEvent.setTargetAtTime 0 0 (1/5)), none)
      ∧ (run (mount "Natural" BotLockStatus.UNLOCKED 50 false)
            ([] ++ [Cmd.setStatus BotLockStatus.OVERRIDE])).targets.alarmGainT = 1/10
      ∧ axisTimers Axis.statusAxis
          (run (mount "Natural" BotLockStatus.UNLOCKED 50 false)
            ([] ++ [Cmd.setStatus BotLockStatus.LOCKED])) = [] :=
  ⟨(spec_C3 BotLockStatus.OVERRIDE 0 0 50 "Natural" BotLockStatus.UNLOCKED false []).1
      rfl,
    (spec_C3 BotLockStatus.LOCKED 0 0 50 "Natural" BotLockStatus.UNLOCKED false []).2.1
      (by decide),
    ((spec_C3 BotLockStatus.OVERRIDE 0 0 50 "Natural" BotLockStatus.UNLOCKED false
      []).2.2.2.2.1 rfl).1,
    ((spec_C3 BotLockStatus.LOCKED 0 0 50 "Natural" BotLockStatus.UNLOCKED false
      []).2.2.2.2.2 (by decide)).2⟩

/-- C7: calling setProfile twice in a row with the same profile yields
exactly the same engine state (targets included) as calling it once, and
leaves at most one live profile-axis routine. -/
theorem spec_C7 (p p0 : String) (s0 : BotLockStatus) (q0 : ℚ) (m0 : Bool)
    (cmds : List Cmd) :
    run (mount p0 s0 q0 m0) (cmds ++ [Cmd.setProfile p, Cmd.setProfile p])
        = run (mount p0 s0 q0 m0) (cmds ++ [Cmd.setProfile p])
      ∧ (axisTimers Axis.profileAxis
          (run (mount p0 s0 q0 m0)
            (cmds ++ [Cmd.setProfile p, Cmd.setProfile p]))).length ≤ 1 := by
  have heq : run (mount p0 s0 q0 m0) (cmds ++ [Cmd.setProfile p, Cmd.setProfile p])
      = run (mount p0 s0 q0 m0) (cmds ++ [Cmd.setProfile p]) := by
    rw [run_append, run_append]
    show step (step (run (mount p0 s0 q0 m0) cmds) (Cmd.setProfile p))
        (Cmd.setProfile p)
      = step (run (mount p0 s0 q0 m0) cmds) (Cmd.setProfile p)
    rw [step_setProfile_eq
      (step (run (mount p0 s0 q0 m0) cmds) (Cmd.setProfile p)) p]
    rw [if_pos (step_setProfile_profile (run (mount p0 s0 q0 m0) cmds) p).symm]
  refine ⟨heq, ?_⟩
  rw [heq]
  exact profOk_length_le_one
    (reach_run p0 s0 q0 m0 (cmds ++ [Cmd.setProfile p])).2.1
